import Mathlib

/-!
Verification of the Kuberlab OCR pipeline core against its specification.

The definitions below are a shallow embedding of the repository's two core
modules, `app/api/main.py` (the ingestion coordinator) and
`app/worker/main.py` (the worker pool scheduler, engine pool and failure
policy).  Python byte strings are `List Nat` (each element < 256), machine
32-bit words are `Nat` taken modulo `2 ^ 32`, Azure table / blob / queue
state is explicit association-list state threaded through the functions,
and fallible collaborator calls are modelled by the branch the surrounding
`try/except` actually takes.
-/

/-! ### SHA-256 (`hashlib.sha256(...).hexdigest()`)

`create_ocr_job` uses `hashlib.sha256(content).hexdigest()` as the job id,
and `generate_upload_url` applies the same hash to `filename_timestamp`.
This is a faithful executable SHA-256 over byte lists. -/

/-- 2 ^ 32, the modulus for 32-bit words. -/
def m32 : Nat := 4294967296

/-- Addition of 32-bit words. -/
def add32 (a b : Nat) : Nat := (a + b) % m32

/-- Right rotation of a 32-bit word by `n` bits. -/
def rotr32 (n x : Nat) : Nat := ((x >>> n) ||| ((x <<< (32 - n)) % m32)) % m32

/-- SHA-256 big sigma 0. -/
def bSig0 (x : Nat) : Nat := (rotr32 2 x) ^^^ (rotr32 13 x) ^^^ (rotr32 22 x)

/-- SHA-256 big sigma 1. -/
def bSig1 (x : Nat) : Nat := (rotr32 6 x) ^^^ (rotr32 11 x) ^^^ (rotr32 25 x)

/-- SHA-256 small sigma 0. -/
def sSig0 (x : Nat) : Nat := (rotr32 7 x) ^^^ (rotr32 18 x) ^^^ (x >>> 3)

/-- SHA-256 small sigma 1. -/
def sSig1 (x : Nat) : Nat := (rotr32 17 x) ^^^ (rotr32 19 x) ^^^ (x >>> 10)

/-- SHA-256 choice function; negation is xor with the all-ones word. -/
def chW (x y z : Nat) : Nat := (x &&& y) ^^^ ((x ^^^ 4294967295) &&& z)

/-- SHA-256 majority function. -/
def majW (x y z : Nat) : Nat := (x &&& y) ^^^ (x &&& z) ^^^ (y &&& z)

/-- The 64 SHA-256 round constants. -/
def shaK : List Nat :=
  [1116352408, 1899447441, 3049323471, 3921009573, 961987163,
   1508970993, 2453635748, 2870763221, 3624381080, 310598401,
   607225278, 1426881987, 1925078388, 2162078206, 2614888103,
   3248222580, 3835390401, 4022224774, 264347078, 604807628,
   770255983, 1249150122, 1555081692, 1996064986, 2554220882,
   2821834349, 2952996808, 3210313671, 3336571891, 3584528711,
   113926993, 338241895, 666307205, 773529912, 1294757372,
   1396182291, 1695183700, 1986661051, 2177026350, 2456956037,
   2730485921, 2820302411, 3259730800, 3345764771, 3516065817,
   3600352804, 4094571909, 275423344, 430227734, 506948616,
   659060556, 883997877, 958139571, 1322822218, 1537002063,
   1747873779, 1955562222, 2024104815, 2227730452, 2361852424,
   2428436474, 2756734187, 3204031479, 3329325298]

/-- The SHA-256 initial hash value. -/
def shaH0 : List Nat :=
  [1779033703, 3144134277, 1013904242, 2773480762,
   1359893119, 2600822924, 528734635, 1541459225]

/-- `k` bytes of `n`, big-endian. -/
def bytesBE : Nat → Nat → List Nat
  | 0, _ => []
  | k + 1, n => bytesBE k (n / 256) ++ [n % 256]

/-- SHA-256 padding: append 0x80, zero bytes to 56 mod 64, then the bit
length as 8 big-endian bytes. -/
def padMessage (msg : List Nat) : List Nat :=
  msg ++ [0x80] ++ List.replicate ((55 + 64 - msg.length % 64) % 64) 0
      ++ bytesBE 8 (msg.length * 8)

/-- Group a byte list into big-endian 32-bit words. -/
def toWords : List Nat → List Nat
  | b0 :: b1 :: b2 :: b3 :: rest => (((b0 * 256 + b1) * 256 + b2) * 256 + b3) :: toWords rest
  | _ => []

/-- Split into 64-byte blocks (fuel-driven on the list length). -/
def chunks64Aux : Nat → List Nat → List (List Nat)
  | 0, _ => []
  | _, [] => []
  | fuel + 1, l => l.take 64 :: chunks64Aux fuel (l.drop 64)

/-- Split a byte list into 64-byte blocks. -/
def chunks64 (l : List Nat) : List (List Nat) := chunks64Aux l.length l

/-- Extend the 16-word message schedule by `k` further words. -/
def extendSchedule : Nat → List Nat → List Nat
  | 0, ws => ws
  | k + 1, ws =>
      let i := ws.length
      let nw := add32 (add32 (sSig1 (ws.getD (i - 2) 0)) (ws.getD (i - 7) 0))
                      (add32 (sSig0 (ws.getD (i - 15) 0)) (ws.getD (i - 16) 0))
      extendSchedule k (ws ++ [nw])

/-- One SHA-256 compression round on the 8-word working state. -/
def shaRound (st : List Nat) (kw : Nat × Nat) : List Nat :=
  let a := st.getD 0 0
  let b := st.getD 1 0
  let c := st.getD 2 0
  let d := st.getD 3 0
  let e := st.getD 4 0
  let f := st.getD 5 0
  let g := st.getD 6 0
  let hh := st.getD 7 0
  let t1 := add32 hh (add32 (bSig1 e) (add32 (chW e f g) (add32 kw.1 kw.2)))
  let t2 := add32 (bSig0 a) (majW a b c)
  [add32 t1 t2, a, b, c, add32 d t1, e, f, g]

/-- Compress one 64-byte block into the running hash. -/
def compressBlock (h : List Nat) (block : List Nat) : List Nat :=
  let w := extendSchedule 48 (toWords block)
  let fin := (shaK.zip w).foldl shaRound h
  (h.zip fin).map (fun p => add32 p.1 p.2)

/-- SHA-256 digest of a byte list, as 32 bytes. -/
def sha256bytes (msg : List Nat) : List Nat :=
  let h := (chunks64 (padMessage msg)).foldl compressBlock shaH0
  (h.map (bytesBE 4)).flatten

/-- Lower-case hex digit for `n < 16`. -/
def hexDigit (n : Nat) : Char := if n < 10 then Char.ofNat (48 + n) else Char.ofNat (87 + n)

/-- Two lower-case hex digits of a byte. -/
def byteHex (b : Nat) : List Char := [hexDigit (b / 16), hexDigit (b % 16)]

/-- `hashlib.sha256(msg).hexdigest()`. -/
def sha256hex (msg : List Nat) : String :=
  String.mk ((sha256bytes msg).map byteHex).flatten

/-- Byte encoding of an ASCII string (`str.encode()` for the ASCII strings
the code hashes). -/
def strBytes (s : String) : List Nat := s.data.map (fun c => c.toNat % 256)

/-! ### Data model: job records and store primitives

Azure Table storage under partition "jobs": the table is an association
list from row key (job id) to entity.  `get_entity` raises on a missing
key (modelled as `Option`), `update_entity(mode="merge")` merges the given
fields into the stored entity, and `create_entity` raises when the key
already exists (callers catch and continue). -/

/-- Job lifecycle status values written by the API and the worker. -/
inductive Status where
  | queued
  | processing
  | completed
  | failed
deriving DecidableEq, BEq, Repr

/-- A row of the `ocrjobs` table.  Optional columns are absent until some
write sets them; Azure merge updates only touch the keys supplied. -/
structure JobEntity where
  status : Status
  filename : String
  blob_name : String
  created_at : String
  file_size : Nat
  updated_at : Option String := none
  completed_at : Option String := none
  error : Option String := none
  result_blob : Option String := none
deriving DecidableEq, Repr

/-- `get_entity`: first binding for the key, `none` when missing (the
Python call raises `ResourceNotFoundError` there). -/
def lookupA {α : Type} : List (String × α) → String → Option α
  | [], _ => none
  | (k, v) :: rest, j => if k = j then some v else lookupA rest j

/-- Replace the value stored at a key, leaving the list unchanged when the
key is absent. -/
def setA {α : Type} : List (String × α) → String → α → List (String × α)
  | [], _, _ => []
  | (k, v) :: rest, j, nv => if k = j then (k, nv) :: rest else (k, v) :: setA rest j nv

/-- Blob `upload_blob(..., overwrite=True)`: idempotent overwrite. -/
def putA {α : Type} (l : List (String × α)) (j : String) (v : α) : List (String × α) :=
  match lookupA l j with
  | some _ => setA l j v
  | none => l ++ [(j, v)]

/-- `create_entity`: inserts a fresh row; when the key already exists the
call raises, the caller catches and logs, and the table is unchanged. -/
def create_entity (l : List (String × JobEntity)) (j : String) (v : JobEntity) :
    List (String × JobEntity) :=
  match lookupA l j with
  | some _ => l
  | none => l ++ [(j, v)]

/-! ### Ingestion coordinator (`app/api/main.py`) -/

/-- `ALLOWED_EXTENSIONS` from the API module. -/
def ALLOWED_EXTENSIONS : List String := [".jpg", ".jpeg", ".png"]

/-- `MAX_FILE_SIZE` (10 MB). -/
def MAX_FILE_SIZE : Nat := 10 * 1024 * 1024

/-- Index of the last dot in a character list, if any. -/
def lastDotIdx (cs : List Char) : Option Nat :=
  (List.range cs.length).foldl (fun acc i => if cs.getD i ' ' = '.' then some i else acc) none

/-- Whether some character strictly before index `i` is not a dot
(`os.path.splitext` treats leading dots as part of the name). -/
def hasNonDotBefore (cs : List Char) (i : Nat) : Bool :=
  (List.range i).any (fun j => cs.getD j ' ' != '.')

/-- The extension part of `os.path.splitext(filename)`. -/
def splitextExt (f : String) : String :=
  match lastDotIdx f.data with
  | none => ""
  | some i => if hasNonDotBefore f.data i then String.mk (f.data.drop i) else ""

/-- `os.path.splitext(filename)[1].lower()` as the API computes it. -/
def file_extension (f : String) : String :=
  String.mk ((splitextExt f).data.map Char.toLower)

/-- A `WorkMessage` as serialized to the Service Bus queue body, together
with the broker-level `message_id` (set to the job id). -/
structure QueueMessage where
  message_id : String
  job_id : String
  blob_name : String
  filename : String
  created_at : String
  file_size : Nat
deriving DecidableEq, Repr

/-- The externally visible state the ingestion coordinator touches: the
jobs table, the uploads container and the main queue. -/
structure ApiState where
  table : List (String × JobEntity)
  blobs : List (String × List Nat)
  queue : List QueueMessage
deriving DecidableEq, Repr

/-- The parts of the HTTP response the claims talk about. -/
structure ApiResponse where
  status_code : Nat
  job_id : Option String
  job_status : Option Status
deriving DecidableEq, Repr

/-- Count of collaborator side effects performed during one call. -/
structure Effects where
  blob_puts : Nat
  queue_sends : Nat
  entity_creates : Nat
deriving DecidableEq, Repr

/-- `create_ocr_job` (`POST /ocr`): validate extension and size, hash the
content into the job id, return the existing record when the id is already
present (no side effects), otherwise upload the blob, enqueue the work
message with `message_id = job_id`, and create the `queued` table row. -/
def create_ocr_job (st : ApiState) (filename : String) (content : List Nat)
    (now : String) : ApiResponse × Effects × ApiState :=
  if ¬ (ALLOWED_EXTENSIONS.contains (file_extension filename)) then
    (⟨400, none, none⟩, ⟨0, 0, 0⟩, st)
  else if MAX_FILE_SIZE < content.length then
    (⟨400, none, none⟩, ⟨0, 0, 0⟩, st)
  else if content.length = 0 then
    (⟨400, none, none⟩, ⟨0, 0, 0⟩, st)
  else
    let job_id := sha256hex content
    match lookupA st.table job_id with
    | some e => (⟨200, some job_id, some e.status⟩, ⟨0, 0, 0⟩, st)
    | none =>
        let blob_name := job_id ++ file_extension filename
        let blobs := putA st.blobs blob_name content
        let queue := st.queue ++ [⟨job_id, job_id, blob_name, filename, now, content.length⟩]
        let table := create_entity st.table job_id
          { status := .queued, filename := filename, blob_name := blob_name,
            created_at := now, file_size := content.length }
        (⟨202, some job_id, some .queued⟩, ⟨1, 1, 1⟩, ⟨table, blobs, queue⟩)

/-- The job id pre-generated by `generate_upload_url`
(`POST /generate-upload-url`): the SHA-256 hex digest of the string
`filename_timestamp` (the code's `temp_content`), not of any content. -/
def upload_url_job_id (filename iso_now : String) : String :=
  sha256hex (strBytes (filename ++ "_" ++ iso_now))

/-! ### Worker (`app/worker/main.py`) -/

/-- `MAX_RETRIES` default (env `MAX_RETRIES`, default "3"). -/
def MAX_RETRIES : Nat := 3

/-- `CONCURRENT_WORKERS` default (env default "3"). -/
def CONCURRENT_WORKERS : Nat := 3

/-- `TESSERACT_POOL_SIZE` default (env default "3"). -/
def TESSERACT_POOL_SIZE : Nat := 3

/-- The entity mutation block of `update_job_status`: set `status` and
`updated_at`, set `completed_at` when completing, and set `error` /
`result_blob` only when the arguments are given — a merge update leaves
every other stored column as it was. -/
def mergeEnt (e : JobEntity) (status : Status) (error : Option String)
    (result_blob : Option String) (now : String) : JobEntity :=
  { e with
    status := status
    updated_at := some now
    completed_at := if status = .completed then some now else e.completed_at
    error := match error with | some m => some m | none => e.error
    result_blob := match result_blob with | some r => some r | none => e.result_blob }

/-- `update_job_status`: fetch the entity, mutate it, then merge-update.
When `get_entity` raises (missing row) the handler logs and the table is
left unchanged — the update is dropped, no row is created. -/
def update_job_status (table : List (String × JobEntity)) (job_id : String)
    (status : Status) (error : Option String) (result_blob : Option String)
    (now : String) : List (String × JobEntity) :=
  match lookupA table job_id with
  | none => table
  | some e => setA table job_id (mergeEnt e status error result_blob now)

/-- The fields of a leased message the worker reads: the parsed JSON body
(`job_id`, `blob_name`) and the broker metadata. -/
structure WMsg where
  message_id : String
  job_id : String
  blob_name : String
deriving DecidableEq, Repr

/-- Result of one transform attempt (`process_ocr` followed by
`save_result`): the extracted text, or the message of the exception the
attempt raised. -/
inductive Outcome where
  | ok (text : String)
  | err (msg : String)
deriving DecidableEq, Repr

/-- The record `send_to_poison_queue` intends to publish: the original
message body, the original message id, the error and a failure
timestamp. -/
structure PoisonRecord where
  body : String
  original_message_id : String
  error : String
  failed_at : String
deriving DecidableEq, Repr

/-- The worker-side external state: the jobs table, the results container
and the poison queue. -/
structure WorkerState where
  table : List (String × JobEntity)
  results : List (String × String)
  poison : List PoisonRecord
deriving DecidableEq, Repr

/-- What the worker finally does with the lease. -/
inductive BrokerAction where
  | completed
  | abandoned
deriving DecidableEq, Repr

/-- `send_to_poison_queue`: the body builds a `ServiceBusMessage`, but that
name is not imported in `app/worker/main.py` (only `ServiceBusClient`,
`ServiceBusReceiver` and `ServiceBusReceivedMessage` are), so the
construction raises `NameError` before anything is sent; the function's
own `except` catches and logs it.  Net effect on the poison queue: none.
The `PoisonRecord` structure above documents what the raising line would
have published. -/
def send_to_poison_queue (poison : List PoisonRecord) (_msg : WMsg) (_error : String)
    (_now : String) : List PoisonRecord :=
  poison

/-- `save_result`: write the text to `results/{job_id}.txt` and return the
blob name. -/
def save_result (results : List (String × String)) (job_id : String) (text : String) :
    String × List (String × String) :=
  let result_blob_name := job_id ++ ".txt"
  (result_blob_name, putA results result_blob_name text)

/-- Result of `process_message` on one delivery: the new external state,
the lease action taken, and the list of status values it passed to
`update_job_status`, in order. -/
structure AttemptResult where
  state : WorkerState
  action : BrokerAction
  writes : List Status
deriving DecidableEq, Repr

/-- `process_message` on one delivery of a well-formed message whose
transform attempt has outcome `outcome` and whose broker delivery count is
`dc` (0 on the first delivery, incremented by the broker on each
redelivery, as §3 of the spec defines it).  On success: write `processing`,
run the transform, save the result, write `completed` with the result
blob, complete the lease.  On failure: write `processing`, write `failed`
with the error, then poison-and-complete when `dc ≥ maxRetries`, else
abandon for retry.  Lease operations themselves are assumed to succeed. -/
def process_message (maxRetries : Nat) (st : WorkerState) (msg : WMsg) (dc : Nat)
    (outcome : Outcome) (now : String) : AttemptResult :=
  let table1 := update_job_status st.table msg.job_id .processing none none now
  match outcome with
  | .ok text =>
      let r := save_result st.results msg.job_id text
      let table2 := update_job_status table1 msg.job_id .completed none (some r.1) now
      ⟨⟨table2, r.2, st.poison⟩, .completed, [.processing, .completed]⟩
  | .err e =>
      let table2 := update_job_status table1 msg.job_id .failed (some e) none now
      if maxRetries ≤ dc then
        ⟨⟨table2, st.results, send_to_poison_queue st.poison msg e now⟩,
          .completed, [.processing, .failed]⟩
      else
        ⟨⟨table2, st.results, st.poison⟩, .abandoned, [.processing, .failed]⟩

/-- Result of delivering a message repeatedly until the worker completes
its lease: final state, number of attempts, the status values written
across all attempts, and whether a terminal attempt was reached within the
fuel. -/
structure RunResult where
  state : WorkerState
  attempts : Nat
  trace : List Status
  done : Bool
deriving DecidableEq, Repr

/-- At-least-once delivery of one message: attempt with delivery count
`dc`; when the worker abandons the lease the broker redelivers with
`dc + 1`.  `outcomes n` / `nows n` give the transform outcome and clock
reading of the attempt with delivery count `n`. -/
def run_job (maxRetries : Nat) (outcomes : Nat → Outcome) (nows : Nat → String)
    (msg : WMsg) : Nat → Nat → WorkerState → RunResult
  | 0, _, st => ⟨st, 0, [], false⟩
  | fuel + 1, dc, st =>
      let r := process_message maxRetries st msg dc (outcomes dc) (nows dc)
      match r.action with
      | .completed => ⟨r.state, 1, r.writes, true⟩
      | .abandoned =>
          let rest := run_job maxRetries outcomes nows msg fuel (dc + 1) r.state
          ⟨rest.state, rest.attempts + 1, r.writes ++ rest.trace, rest.done⟩

/-! ### Worker pool scheduler main loop (`main`)

One iteration of the `while running` loop: `receive_messages` leases up to
`CONCURRENT_WORKERS` messages (the count requested never depends on how
many executor slots are free), every received message is submitted to the
`ThreadPoolExecutor`, and the loop then waits on
`as_completed(futures, timeout=300)`.  When the whole batch finishes the
wait returns normally; otherwise after 300 seconds the raised
`TimeoutError` is caught in the outer `except` and the loop continues with
the unfinished tasks still running and their messages still leased. -/

/-- Scheduler state: the number of leased messages whose processing has
not yet finished (messages held in the executor, running or queued). -/
structure SchedulerState where
  inflight : Nat
deriving DecidableEq, Repr

/-- One iteration of the main loop.  `avail` is how many messages the
broker has ready; `finished` is how many of the in-flight tasks finish
before the wait returns (all of the batch when no timeout occurs, fewer —
possibly zero — when the 300-second `as_completed` timeout fires and is
caught). -/
def loop_iter (st : SchedulerState) (avail finished : Nat) : SchedulerState :=
  let received := min avail CONCURRENT_WORKERS
  ⟨st.inflight + received - finished⟩

/-! ### Tesseract engine pool (`initialize_tesseract_pool`, `process_ocr`)

The pool is a `queue.Queue` of pre-built engine configurations.
`process_ocr` checks one out with `tesseract_pool.get(timeout=30)`, runs
the transform, and the `finally` clause puts the handle back whenever the
local is truthy — the pooled configuration is a fixed non-empty string, so
every checked-out handle is returned no matter how the transform exited.
A `get` that times out raises before anything is checked out. -/

/-- Phase of one worker slot with respect to the engine pool. -/
inductive WPhase where
  | idle
  | holding
  | finished
deriving DecidableEq, BEq, Repr

/-- Pool state: handles sitting in the queue, plus the phase of each of
the `K` concurrently running job attempts. -/
structure PoolState where
  pool : Nat
  workers : List WPhase
deriving DecidableEq, Repr

/-- Initial pool state: `n` handles in the queue, `k` attempts not yet
started. -/
def initPool (n k : Nat) : PoolState :=
  ⟨n, List.replicate k .idle⟩

/-- How the transform inside `process_ocr` exited: returned text, or
raised (the blob download, the size ceiling, PIL or pytesseract). -/
inductive OcrExit where
  | ok (text : String)
  | exn (msg : String)
deriving DecidableEq, Repr

/-- The pool-relevant transitions of `process_ocr`:
`acquire` is a successful `tesseract_pool.get` (one handle leaves the
queue); `acquireTimeout` is `get` raising `Empty` after its 30-second
timeout (a retryable failure, nothing checked out); `finish exit` is the
`finally` clause after the transform exited with `exit` — the handle goes
back to the queue whether `exit` is a result or an exception. -/
inductive PoolStep : PoolState → PoolState → Prop
  | acquire (s : PoolState) (i : Nat)
      (h : s.workers.getD i .finished = .idle) (hp : 0 < s.pool) :
      PoolStep s ⟨s.pool - 1, s.workers.set i .holding⟩
  | acquireTimeout (s : PoolState) (i : Nat)
      (h : s.workers.getD i .finished = .idle) :
      PoolStep s ⟨s.pool, s.workers.set i .finished⟩
  | finish (s : PoolState) (i : Nat) (exit : OcrExit)
      (h : s.workers.getD i .finished = .holding) :
      PoolStep s ⟨s.pool + 1, s.workers.set i .finished⟩

/-- States reachable from `initPool n k` by `process_ocr` steps of the `k`
concurrent attempts. -/
inductive PoolReach (n k : Nat) : PoolState → Prop
  | init : PoolReach n k (initPool n k)
  | step (s t : PoolState) : PoolReach n k s → PoolStep s t → PoolReach n k t

/-- Number of engine handles currently checked out. -/
def checkedOut (s : PoolState) : Nat :=
  s.workers.countP (fun w => w == .holding)

/-! ### Pool construction (`initialize_tesseract_pool`) -/

/-- Outcome of worker startup pool construction: how many engine handles
ended up in the pool, and whether the process exited. -/
structure InitResult where
  pool_size : Nat
  exited : Bool
deriving DecidableEq, Repr

/-- `initialize_tesseract_pool`: for each `i < TESSERACT_POOL_SIZE` the
loop body builds a configuration and puts it in the pool; `fails i` says
whether that body raised.  The per-handle `except` clause only logs, so a
failed handle is skipped and the loop continues; nothing in this function
exits the process (the `sys.exit(1)` in `initialize_clients` is reachable
only by an exception that propagates out, and none does). -/
def initialize_tesseract_pool (fails : Nat → Bool) : InitResult :=
  (List.range TESSERACT_POOL_SIZE).foldl
    (fun (st : InitResult) i => if fails i then st else ⟨st.pool_size + 1, st.exited⟩)
    ⟨0, false⟩

/-! ### Observables used by the statements -/

/-- A concrete leased message for job `j1`. -/
def msg1 : WMsg := ⟨"m1", "j1", "j1.png"⟩

/-- The table row the coordinator creates for `j1`. -/
def ent0 : JobEntity :=
  { status := .queued, filename := "a.png", blob_name := "j1.png",
    created_at := "t0", file_size := 3 }

/-- Worker-side state holding just the queued record for `j1`. -/
def wst0 : WorkerState := ⟨[("j1", ent0)], [], []⟩

/-- A transform that fails on every delivery. -/
def alwaysFail : Nat → Outcome := fun _ => .err "transform failed"

/-- A constant clock for the worker's timestamp writes. -/
def clock1 : Nat → String := fun _ => "t1"

/-! ### Helper lemmas about the store primitives -/

/-- Appending a fresh binding makes it visible when the key was absent. -/
theorem lookupA_append {α : Type} (l : List (String × α)) (j : String) (v : α)
    (h : lookupA l j = none) : lookupA (l ++ [(j, v)]) j = some v := by
  induction l with
  | nil => simp [lookupA]
  | cons p rest ih =>
      obtain ⟨k, w⟩ := p
      by_cases hk : k = j
      · simp [lookupA, hk] at h
      · simp only [List.cons_append, lookupA, hk, if_false] at h ⊢
        exact ih h

/-- C6 counterexample: the worker's first status update does NOT create a
missing record.  Starting from a table with no row for `j1` (the
coordinator's step-6 write failed), the worker's `processing` update
leaves the row still missing: `get_entity` raises, the handler logs, and
the write is dropped. -/
theorem c6_counterexample :
    lookupA (update_job_status [] "j1" Status.processing none none "t1") "j1" = none := by
  rfl

/-- C6 amended: when the JobRecord write failed after the enqueue
succeeded, the worker's status updates are silently dropped:
`update_job_status` on a table without the job's row returns the table
unchanged (no record is created or merged), so the job's status never
self-heals. -/
theorem c6_update_on_missing_record_is_noop (table : List (String × JobEntity))
    (job_id : String) (s : Status) (er rb : Option String) (now : String)
    (h : lookupA table job_id = none) :
    update_job_status table job_id s er rb now = table := by
  unfold update_job_status
  rw [h]

/-- C6 witness for the amended theorem at a concrete input. -/
theorem c6_update_on_missing_record_is_noop_witness :
    update_job_status [] "j1" Status.failed (some "boom") none "t1" = [] :=
  c6_update_on_missing_record_is_noop [] "j1" Status.failed (some "boom") none "t1" rfl

/-! ### Claim C10 — swallowed poison publish still completes the lease -/

/-- C10: once a message has exhausted its retries, the poison publish
fails (in this code, unconditionally: building the `ServiceBusMessage`
raises `NameError` because the name is not imported, and
`send_to_poison_queue` swallows the error), yet `process_message` still
completes the original lease: the message leaves the main queue with no
redelivery and no poison record anywhere. -/
theorem c10_poison_send_failure_still_completes (mr : Nat) (st : WorkerState)
    (msg : WMsg) (dc : Nat) (m now : String) (h : mr ≤ dc) :
    (process_message mr st msg dc (.err m) now).action = .completed
      ∧ (process_message mr st msg dc (.err m) now).state.poison = st.poison := by
  simp [process_message, send_to_poison_queue, h]

/-- C10 witness: the claim's theorem at a concrete exhausted message. -/
theorem c10_poison_send_failure_still_completes_witness :
    (process_message 3 wst0 msg1 3 (.err "boom") "t1").action = .completed
      ∧ (process_message 3 wst0 msg1 3 (.err "boom") "t1").state.poison = wst0.poison :=
  c10_poison_send_failure_still_completes 3 wst0 msg1 3 "boom" "t1" (by decide)

/-! ### Claim C1 — retry bound and poison routing of an always-failing job -/

/-- C1: for a job whose transform fails on every delivery, with
`MAX_RETRIES = 3` the worker attempts the message `MAX_RETRIES + 1 = 4`
times (delivery counts 0,1,2 are abandoned for retry, delivery count 3
takes the terminal path) and completes the lease, as the claim says — but
the poison queue stays EMPTY: `send_to_poison_queue` always dies on the
unimported `ServiceBusMessage` name and swallows the `NameError`, so the
promised poison record embedding the body, message id, error and failure
timestamp is never published.  The record is left in status `failed`. -/
theorem c1_always_failing_run_completes_without_poison :
    (run_job MAX_RETRIES alwaysFail clock1 msg1 5 0 wst0).attempts = MAX_RETRIES + 1
      ∧ (run_job MAX_RETRIES alwaysFail clock1 msg1 5 0 wst0).done = true
      ∧ (run_job MAX_RETRIES alwaysFail clock1 msg1 5 0 wst0).state.poison = []
      ∧ (lookupA (run_job MAX_RETRIES alwaysFail clock1 msg1 5 0 wst0).state.table "j1").map
          (fun e => e.status) = some Status.failed := by
  decide

/-! ### Claim C7 — scheduler backpressure -/

/-- C7 counterexample: when a batch of `CONCURRENT_WORKERS = 3` leased
messages does not finish within the 300-second `as_completed` timeout
(`finished = 0`), the caught `TimeoutError` sends the loop straight back
to `receive_messages`, which leases 3 more while all 3 worker slots are
still occupied — after two such iterations the core holds 6 leased,
unfinished messages, exceeding its worker capacity. -/
theorem c7_counterexample :
    (loop_iter (loop_iter ⟨0⟩ 3 0) 3 0).inflight = 2 * CONCURRENT_WORKERS
      ∧ CONCURRENT_WORKERS < (loop_iter (loop_iter ⟨0⟩ 3 0) 3 0).inflight := by
  decide

/-- C7 amended: the backpressure bound holds for every iteration whose
batch completes within the wait: starting an iteration with no unfinished
in-flight work (which is how every non-timed-out iteration ends), the loop
leases at most `CONCURRENT_WORKERS` messages, holds at most
`CONCURRENT_WORKERS` leased messages while they run, and ends the
iteration with none in flight.  Only the 300-second timeout path leases
beyond capacity. -/
theorem c7_backpressure_without_timeout (st : SchedulerState) (avail : Nat)
    (h : st.inflight = 0) :
    st.inflight + min avail CONCURRENT_WORKERS ≤ CONCURRENT_WORKERS
      ∧ loop_iter st avail (st.inflight + min avail CONCURRENT_WORKERS) = ⟨0⟩ := by
  constructor
  · simp [h]
  · simp [loop_iter, h]

/-- C7 witness for the amended theorem at a concrete iteration. -/
theorem c7_backpressure_without_timeout_witness :
    (⟨0⟩ : SchedulerState).inflight + min 5 CONCURRENT_WORKERS ≤ CONCURRENT_WORKERS
      ∧ loop_iter ⟨0⟩ 5 ((⟨0⟩ : SchedulerState).inflight + min 5 CONCURRENT_WORKERS) = ⟨0⟩ :=
  c7_backpressure_without_timeout ⟨0⟩ 5 rfl

/-! ### Claim C9 — fail-fast engine pool construction -/

/-- C9 counterexample: with the second handle's initialization raising,
startup does NOT fail — the per-handle `except` logs and the loop keeps
going, producing a silently smaller pool of 2 engines out of
`TESSERACT_POOL_SIZE = 3` with the process still running. -/
theorem c9_counterexample :
    (initialize_tesseract_pool (fun i => i == 1)).exited = false
      ∧ (initialize_tesseract_pool (fun i => i == 1)).pool_size
          = TESSERACT_POOL_SIZE - 1 := by
  decide

/-- The pool construction loop counts exactly the non-failing handles and
never flips the exit flag. -/
theorem init_pool_foldl (fails : Nat → Bool) (l : List Nat) (acc : InitResult) :
    l.foldl (fun (st : InitResult) i =>
        if fails i then st else ⟨st.pool_size + 1, st.exited⟩) acc
      = ⟨acc.pool_size + l.countP (fun i => !(fails i)), acc.exited⟩ := by
  induction l generalizing acc with
  | nil => simp
  | cons x xs ih =>
      by_cases hx : fails x
      · simp [List.countP_cons, hx, ih]
      · simp only [List.foldl_cons, hx, if_false, ih, List.countP_cons]
        simp [hx]
        omega

/-- C9 amended: engine pool construction is not fail-fast.  For every
pattern of per-handle initialization failures, the process keeps running
(`exited = false`) and the pool is built with exactly the handles that did
not fail — each failure silently shrinks the pool by one instead of
aborting startup.  (The `sys.exit(1)` in `initialize_clients` is reached
only by exceptions that escape, and the per-handle handler lets none
escape.) -/
theorem c9_pool_init_continues_on_failure (fails : Nat → Bool) :
    (initialize_tesseract_pool fails).exited = false
      ∧ (initialize_tesseract_pool fails).pool_size
          + (List.range TESSERACT_POOL_SIZE).countP fails = TESSERACT_POOL_SIZE := by
  unfold initialize_tesseract_pool
  rw [init_pool_foldl]
  refine ⟨rfl, ?_⟩
  have h := (List.range TESSERACT_POOL_SIZE).length_eq_countP_add_countP fails
  simp only [List.length_range, Bool.not_eq_true] at h
  have hc : (List.range TESSERACT_POOL_SIZE).countP (fun i => !(fails i))
      = (List.range TESSERACT_POOL_SIZE).countP (fun a => decide (fails a = false)) := by
    refine List.countP_congr ?_
    intro a _
    cases ha : fails a <;> simp [ha]
  simp only [hc] at *
  omega

/-! ### Claim C4 — the status sequence of a record over time -/

/-- C2: submitting the same valid content twice is idempotent.  The first
call performs exactly one blob write, one queue send and one record
create, and answers 202; the second call finds the record under the
content hash and returns the existing identity and status with zero blob
writes, zero sends, zero creates, and the state unchanged. -/
theorem c2_submit_idempotent (st : ApiState) (f : String) (c : List Nat) (t1 t2 : String)
    (hext : ALLOWED_EXTENSIONS.contains (file_extension f) = true)
    (hsz : c.length ≤ MAX_FILE_SIZE)
    (hnz : c.length ≠ 0)
    (habs : lookupA st.table (sha256hex c) = none) :
    (create_ocr_job st f c t1).2.1 = ⟨1, 1, 1⟩
      ∧ (create_ocr_job st f c t1).1.status_code = 202
      ∧ (create_ocr_job ((create_ocr_job st f c t1).2.2) f c t2).1
          = ⟨200, some (sha256hex c), some .queued⟩
      ∧ (create_ocr_job ((create_ocr_job st f c t1).2.2) f c t2).2.1 = ⟨0, 0, 0⟩
      ∧ (create_ocr_job ((create_ocr_job st f c t1).2.2) f c t2).2.2
          = (create_ocr_job st f c t1).2.2 := by
  have hlt : ¬ (MAX_FILE_SIZE < c.length) := Nat.not_lt.mpr hsz
  have hent : lookupA (create_entity st.table (sha256hex c)
      { status := .queued, filename := f, blob_name := sha256hex c ++ file_extension f,
        created_at := t1, file_size := c.length }) (sha256hex c)
      = some { status := .queued, filename := f,
               blob_name := sha256hex c ++ file_extension f,
               created_at := t1, file_size := c.length } := by
    unfold create_entity
    rw [habs]
    exact lookupA_append _ _ _ habs
  have hmem : file_extension f ∈ ALLOWED_EXTENSIONS := by
    have := hext
    simpa using this
  simp [create_ocr_job, hmem, hlt, hnz, habs, hent]

/-- C2 witness: a concrete first and second submission of the bytes
`[1, 2, 3]` as `a.png` against an empty system. -/
theorem c2_submit_idempotent_witness :
    (create_ocr_job ⟨[], [], []⟩ "a.png" [1, 2, 3] "t1").2.1 = ⟨1, 1, 1⟩
      ∧ (create_ocr_job ⟨[], [], []⟩ "a.png" [1, 2, 3] "t1").1.status_code = 202
      ∧ (create_ocr_job ((create_ocr_job ⟨[], [], []⟩ "a.png" [1, 2, 3] "t1").2.2)
            "a.png" [1, 2, 3] "t2").1
          = ⟨200, some (sha256hex [1, 2, 3]), some .queued⟩
      ∧ (create_ocr_job ((create_ocr_job ⟨[], [], []⟩ "a.png" [1, 2, 3] "t1").2.2)
            "a.png" [1, 2, 3] "t2").2.1 = ⟨0, 0, 0⟩
      ∧ (create_ocr_job ((create_ocr_job ⟨[], [], []⟩ "a.png" [1, 2, 3] "t1").2.2)
            "a.png" [1, 2, 3] "t2").2.2
          = (create_ocr_job ⟨[], [], []⟩ "a.png" [1, 2, 3] "t1").2.2 :=
  c2_submit_idempotent ⟨[], [], []⟩ "a.png" [1, 2, 3] "t1" "t2"
    (by decide) (by decide) (by decide) rfl

/-! ### Claim C3 — identity as a pure function of content -/

set_option maxRecDepth 100000

/-- C3 counterexample: on the pre-signed-upload ingestion path the job
identity is NOT a function of the content bytes: `generate_upload_url`
hashes `filename_timestamp`, so the same file name submitted at two
different instants — hence the very same uploaded bytes — receives two
different identities.  The identity on this path depends on the filename
and the time of submission and on nothing else. -/
theorem c3_counterexample :
    upload_url_job_id "a.png" "2025-01-01T00:00:00" ≠
      upload_url_job_id "a.png" "2025-01-01T00:00:01" := by
  decide

/-- C3 amended: only the multipart `POST /ocr` path assigns identities as
a pure function of the uploaded bytes: for every accepted upload the
returned job id is exactly `sha256hex content`, whatever the filename,
submission time or pre-existing state — so two identical uploads on this
path collapse onto the same job.  The pre-signed-URL path instead derives
the id from filename and timestamp (see the counterexample). -/
theorem c3_multipart_identity_pure_in_content (st : ApiState) (f : String)
    (c : List Nat) (now : String)
    (hext : ALLOWED_EXTENSIONS.contains (file_extension f) = true)
    (hsz : c.length ≤ MAX_FILE_SIZE)
    (hnz : c.length ≠ 0) :
    (create_ocr_job st f c now).1.job_id = some (sha256hex c) := by
  have hlt : ¬ (MAX_FILE_SIZE < c.length) := Nat.not_lt.mpr hsz
  have hmem : file_extension f ∈ ALLOWED_EXTENSIONS := by
    have := hext
    simpa using this
  cases hlk : lookupA st.table (sha256hex c) with
  | none => simp [create_ocr_job, hmem, hlt, hnz, hlk]
  | some e => simp [create_ocr_job, hmem, hlt, hnz, hlk]

/-- C3 witness for the amended theorem at a concrete upload. -/
theorem c3_multipart_identity_pure_in_content_witness :
    (create_ocr_job ⟨[], [], []⟩ "b.jpg" [7] "t9").1.job_id = some (sha256hex [7]) :=
  c3_multipart_identity_pure_in_content ⟨[], [], []⟩ "b.jpg" [7] "t9"
    (by decide) (by decide) (by decide)

/-! ### Claim C8 — engine pool safety -/

/-- An index whose `getD` differs from the default is in range. -/
theorem getD_ne_default_lt {α : Type} (l : List α) (i : Nat) (d : α)
    (h : l.getD i d ≠ d) : i < l.length := by
  by_contra hge
  exact h (List.getD_eq_default l d (Nat.le_of_not_lt hge))

/-- Replacing one element shifts `countP` by the predicate values of the
old and new elements. -/
theorem countP_set_eq {α : Type} (p : α → Bool) (l : List α) (i : Nat) (a d : α)
    (h : i < l.length) :
    (l.set i a).countP p + (if p (l.getD i d) then 1 else 0)
      = l.countP p + (if p a then 1 else 0) := by
  induction l generalizing i with
  | nil => simp at h
  | cons x xs ih =>
      cases i with
      | zero =>
          simp only [List.set_cons_zero, List.countP_cons, List.getD_cons_zero]
          omega
      | succ j =>
          have hj : j < xs.length := by simpa using h
          have := ih j hj
          simp only [List.set_cons_succ, List.countP_cons, List.getD_cons_succ]
          omega

/-- No handle is counted as checked out among untouched idle slots. -/
theorem countP_replicate_holding (k : Nat) :
    (List.replicate k WPhase.idle).countP (fun w => w == WPhase.holding) = 0 := by
  induction k with
  | zero => simp
  | succ n ih =>
      simp only [List.replicate, List.countP_cons, ih]
      decide

/-- Conservation: in every reachable pool state, the handles in the queue
plus the handles checked out add up to the pool size `n`. -/
theorem poolReach_inv (n k : Nat) (s : PoolState) (h : PoolReach n k s) :
    s.pool + checkedOut s = n := by
  have bIdle : (WPhase.idle == WPhase.holding) = false := rfl
  have bHold : (WPhase.holding == WPhase.holding) = true := rfl
  have bFin : (WPhase.finished == WPhase.holding) = false := rfl
  induction h with
  | init => simp [initPool, checkedOut, countP_replicate_holding]
  | step s1 s2 hs hst ih =>
      cases hst with
      | acquire i hi hp =>
          have hlt : i < s1.workers.length :=
            getD_ne_default_lt s1.workers i .finished (by rw [hi]; decide)
          have hc := countP_set_eq (fun w => w == WPhase.holding) s1.workers i
            .holding .finished hlt
          rw [hi] at hc
          simp only [bIdle, bHold] at hc
          simp only [checkedOut] at *
          simp only [Bool.false_eq_true, if_false, if_true] at hc
          omega
      | acquireTimeout i hi =>
          have hlt : i < s1.workers.length :=
            getD_ne_default_lt s1.workers i .finished (by rw [hi]; decide)
          have hc := countP_set_eq (fun w => w == WPhase.holding) s1.workers i
            .finished .finished hlt
          rw [hi] at hc
          simp only [bIdle, bFin] at hc
          simp only [checkedOut] at *
          simp only [Bool.false_eq_true, if_false] at hc
          omega
      | finish i exit hi =>
          have hlt : i < s1.workers.length :=
            getD_ne_default_lt s1.workers i .finished (by rw [hi]; decide)
          have hc := countP_set_eq (fun w => w == WPhase.holding) s1.workers i
            .finished .finished hlt
          rw [hi] at hc
          simp only [bHold, bFin] at hc
          simp only [checkedOut] at *
          simp only [Bool.false_eq_true, if_false, if_true] at hc
          omega

/-- C8: pool safety.  In every state reachable under any load of `k`
concurrent job attempts against a pool of `n` engines — including
`k > n` — at most `n` handles are checked out; and for every attempt
currently holding a handle, the `finally` return step is enabled whatever
the transform's exit (text or exception), so the handle goes back to the
pool unconditionally. -/
theorem c8_pool_safety (n k : Nat) (s : PoolState) (h : PoolReach n k s) :
    checkedOut s ≤ n
      ∧ ∀ (i : Nat) (exit : OcrExit), s.workers.getD i .finished = .holding →
          PoolStep s ⟨s.pool + 1, s.workers.set i .finished⟩ := by
  refine ⟨?_, fun i exit hi => PoolStep.finish s i exit hi⟩
  have := poolReach_inv n k s h
  omega

/-- C8 witness: a pool of 2 engines under 3 concurrent attempts, after
the first attempt checked a handle out. -/
theorem c8_pool_safety_witness :
    checkedOut ⟨(initPool 2 3).pool - 1, (initPool 2 3).workers.set 0 .holding⟩ ≤ 2
      ∧ ∀ (i : Nat) (exit : OcrExit),
          (⟨(initPool 2 3).pool - 1, (initPool 2 3).workers.set 0 .holding⟩
              : PoolState).workers.getD i .finished = .holding →
          PoolStep ⟨(initPool 2 3).pool - 1, (initPool 2 3).workers.set 0 .holding⟩
            ⟨(⟨(initPool 2 3).pool - 1, (initPool 2 3).workers.set 0 .holding⟩
                : PoolState).pool + 1,
              (⟨(initPool 2 3).pool - 1, (initPool 2 3).workers.set 0 .holding⟩
                : PoolState).workers.set i .finished⟩ :=
  c8_pool_safety 2 3 _
    (PoolReach.step _ _ PoolReach.init (PoolStep.acquire (initPool 2 3) 0 rfl (by decide)))
